import Mathlib

/-!
Verification of the mahindrabot conversational-assistant backend.

This file gives a shallow embedding of the parts of the repository that the
verified properties talk about:

* `StateManager` (src/mahindrabot/core/state.py): the in-memory OTP store.
  Python's `dict` is modelled as an insertion-ordered association list with
  string keys; `datetime.now()` is modelled by passing the current time (in
  minutes, as a rational number) explicitly to each operation.
* `AgentToolKit.confirm_ride` (src/mahindrabot/core/toolkit.py): OTP-based
  booking confirmation, including the `INTERNAL_SECRET_OTP` environment check
  and the linear scan over all stored sessions.
* `FAQService` (src/mahindrabot/services/faq_service.py): cache validation and
  the dual-field cosine-similarity search.  Ideal (real-number) arithmetic is
  used for scores; a separate NaN-tracking model captures IEEE behaviour of
  the zero-norm edge case.
* `CarService` (src/mahindrabot/services/car_service.py) and the toolkit tool
  wrappers around it: filter validation with fuzzy suggestions and the
  exception-to-text error boundaries.  The external fuzzy matcher (`thefuzz`)
  and the record serializers are kept as parameters of the model.
-/

namespace MB

/-! ## Python `dict` with string keys, as an insertion-ordered association list

`dictSet` mirrors `d[k] = v` (an existing key keeps its position, a new key is
appended), `dictLookup` mirrors `d.get(k)`, and `dictErase` mirrors `del d[k]`.
-/

/-- `d[k] = v` on a Python dict: replace in place if the key is present,
otherwise append at the end. -/
def dictSet {β : Type} (d : List (String × β)) (k : String) (v : β) :
    List (String × β) :=
  if d.any (fun p => p.1 = k) then
    d.map (fun p => if p.1 = k then (k, v) else p)
  else
    d ++ [(k, v)]

/-- `d.get(k)` on a Python dict. -/
def dictLookup {β : Type} (d : List (String × β)) (k : String) : Option β :=
  (d.find? (fun p => p.1 = k)).map (fun p => p.2)

/-- `del d[k]` on a Python dict. -/
def dictErase {β : Type} (d : List (String × β)) (k : String) :
    List (String × β) :=
  d.filter (fun p => p.1 ≠ k)

theorem dictLookup_nil {β : Type} (k : String) :
    dictLookup ([] : List (String × β)) k = none := rfl

theorem find?_map_replace {β : Type} (d : List (String × β)) (k : String) (v : β) :
    (d.map (fun p => if p.1 = k then (k, v) else p)).find? (fun p => p.1 = k) =
      if d.any (fun p => p.1 = k) then some (k, v) else none := by
  induction d with
  | nil => rfl
  | cons a d ih =>
    by_cases h : a.1 = k
    · simp [List.find?, h]
    · have hd : (decide (a.1 = k)) = false := by simp [h]
      rw [List.map_cons, if_neg h, List.any_cons, hd, Bool.false_or]
      simp only [List.find?, hd]
      exact ih

theorem find?_append_fresh {β : Type} (d : List (String × β)) (k : String) (v : β)
    (h : d.any (fun p => p.1 = k) = false) :
    (d ++ [(k, v)]).find? (fun p => p.1 = k) = some (k, v) := by
  induction d with
  | nil => simp [List.find?]
  | cons a d ih =>
    simp only [List.any_cons, Bool.or_eq_false_iff] at h
    simp only [List.cons_append, List.find?, h.1]
    exact ih h.2

theorem dictLookup_dictSet_self {β : Type} (d : List (String × β)) (k : String) (v : β) :
    dictLookup (dictSet d k v) k = some v := by
  unfold dictSet dictLookup
  by_cases h : (d.any fun p => decide (p.1 = k)) = true
  · rw [if_pos h, find?_map_replace, if_pos h]
    rfl
  · rw [if_neg h, find?_append_fresh d k v ?_]
    · rfl
    · revert h
      cases d.any fun p => decide (p.1 = k) <;> simp

theorem dictLookup_dictErase_self {β : Type} (d : List (String × β)) (k : String) :
    dictLookup (dictErase d k) k = none := by
  unfold dictErase dictLookup
  rw [Option.map_eq_none', List.find?_eq_none]
  intro p hp
  have := List.of_mem_filter hp
  simpa using this

theorem dictLookup_eq_of_mem_nodup {β : Type} (d : List (String × β))
    (k : String) (v : β) (hmem : (k, v) ∈ d)
    (hnodup : (d.map Prod.fst).Nodup) :
    dictLookup d k = some v := by
  induction d with
  | nil => simp at hmem
  | cons a d ih =>
    simp only [List.map_cons, List.nodup_cons] at hnodup
    rcases List.mem_cons.mp hmem with h | h
    · subst h
      simp [dictLookup, List.find?]
    · have hk : a.1 ≠ k := by
        intro hak
        exact hnodup.1 (hak ▸ (List.mem_map.mpr ⟨(k, v), h, rfl⟩))
      simpa [dictLookup, List.find?, hk] using ih h hnodup.2

theorem keys_dictSet {β : Type} (d : List (String × β)) (k : String) (v : β) :
    (dictSet d k v).map Prod.fst =
      if d.any (fun p => p.1 = k) then d.map Prod.fst else d.map Prod.fst ++ [k] := by
  unfold dictSet
  by_cases h : d.any (fun p => p.1 = k)
  · simp only [h, if_true, List.map_map]
    apply List.map_congr_left
    intro p _
    by_cases hp : p.1 = k <;> simp [hp]
  · simp [h]

theorem nodup_keys_dictSet {β : Type} (d : List (String × β)) (k : String) (v : β)
    (h : (d.map Prod.fst).Nodup) : ((dictSet d k v).map Prod.fst).Nodup := by
  rw [keys_dictSet]
  by_cases hany : d.any (fun p => p.1 = k)
  · simpa [hany] using h
  · simp only [hany, if_false, Bool.false_eq_true]
    rw [List.nodup_append]
    refine ⟨h, List.nodup_singleton k, ?_⟩
    intro x hx
    simp only [List.mem_singleton]
    intro hxk
    subst hxk
    rcases List.mem_map.mp hx with ⟨p, hp, hpk⟩
    have : d.any (fun q => q.1 = x) = true := by
      exact List.any_eq_true.mpr ⟨p, hp, by simp [hpk]⟩
    simp [this] at hany

theorem nodup_keys_dictErase {β : Type} (d : List (String × β)) (k : String)
    (h : (d.map Prod.fst).Nodup) : ((dictErase d k).map Prod.fst).Nodup := by
  unfold dictErase
  exact (List.Sublist.map Prod.fst (List.filter_sublist d)).nodup h

/-! ## `StateManager` (src/mahindrabot/core/state.py)

`_state` maps a phone number to `{"otp": ..., "name": ..., "timestamp": ...}`.
Time is passed explicitly (in minutes); the expiry check in `verify_otp` is
`datetime.now() - stored["timestamp"] > timedelta(minutes=10)`.
-/

/-- One stored OTP session: the value of `self._state[phone]`. -/
structure OtpSession where
  otp : String
  name : String
  timestamp : ℚ
deriving DecidableEq

/-- The `StateManager._state` dictionary. -/
abbrev OtpState := List (String × OtpSession)

/-- The fixed expiry window of `verify_otp` and `cleanup_expired`:
`timedelta(minutes=10)`. -/
def otpExpiryMinutes : ℚ := 10

/-- `StateManager.store_otp`: store OTP with user info and timestamp
(overwrites any previous session for the phone). -/
def store_otp (σ : OtpState) (phone otp name : String) (now : ℚ) : OtpState :=
  dictSet σ phone ⟨otp, name, now⟩

/-- `StateManager.verify_otp`: returns `(success, name)` and the new state.
Unknown phone fails; an expired session is deleted and fails; a code match
deletes the session and succeeds; a mismatch leaves the session in place. -/
def verify_otp (σ : OtpState) (phone otp : String) (now : ℚ) :
    (Bool × Option String) × OtpState :=
  match dictLookup σ phone with
  | none => ((false, none), σ)
  | some stored =>
    if otpExpiryMinutes < now - stored.timestamp then
      ((false, none), dictErase σ phone)
    else if stored.otp = otp then
      ((true, some stored.name), dictErase σ phone)
    else
      ((false, none), σ)

/-- `StateManager.cleanup_expired`: drop all sessions older than the window. -/
def cleanup_expired (σ : OtpState) (expiry_minutes : ℚ) (now : ℚ) : OtpState :=
  σ.filter (fun p => ¬ expiry_minutes < now - p.2.timestamp)

/-- Claim C2: `store_otp(phone, otp, name)` followed by `verify_otp(phone, otp)`
with the correct code within the 10-minute window returns `(True, name)`; a
second `verify_otp` with the same code afterwards returns `(False, None)`; and
`verify_otp` after the expiry window elapses, even with the correct code,
returns `(False, None)`. -/
theorem otp_round_trip (σ : OtpState) (phone otp name : String) (t1 t2 t2' t3 : ℚ)
    (hin : t2 - t1 ≤ otpExpiryMinutes) (hout : otpExpiryMinutes < t2' - t1) :
    verify_otp (store_otp σ phone otp name t1) phone otp t2 =
      ((true, some name), dictErase (store_otp σ phone otp name t1) phone)
    ∧ verify_otp (dictErase (store_otp σ phone otp name t1) phone) phone otp t3 =
      ((false, none), dictErase (store_otp σ phone otp name t1) phone)
    ∧ verify_otp (store_otp σ phone otp name t1) phone otp t2' =
      ((false, none), dictErase (store_otp σ phone otp name t1) phone) := by
  have hlook : dictLookup (store_otp σ phone otp name t1) phone =
      some ⟨otp, name, t1⟩ := dictLookup_dictSet_self σ phone ⟨otp, name, t1⟩
  refine ⟨?_, ?_, ?_⟩
  · simp [verify_otp, hlook, not_lt.mpr hin]
  · simp [verify_otp, dictLookup_dictErase_self]
  · simp [verify_otp, hlook, hout]

/-- Witness for `otp_round_trip` at a concrete booking. -/
theorem otp_round_trip_witness :
    (5 : ℚ) - 0 ≤ otpExpiryMinutes ∧ otpExpiryMinutes < (11 : ℚ) - 0 ∧
    (verify_otp (store_otp [] "9876543210" "123456" "John Doe" 0) "9876543210" "123456" 5 =
      ((true, some "John Doe"),
        dictErase (store_otp [] "9876543210" "123456" "John Doe" 0) "9876543210")
    ∧ verify_otp (dictErase (store_otp [] "9876543210" "123456" "John Doe" 0) "9876543210")
        "9876543210" "123456" 6 =
      ((false, none), dictErase (store_otp [] "9876543210" "123456" "John Doe" 0) "9876543210")
    ∧ verify_otp (store_otp [] "9876543210" "123456" "John Doe" 0) "9876543210" "123456" 11 =
      ((false, none),
        dictErase (store_otp [] "9876543210" "123456" "John Doe" 0) "9876543210")) :=
  ⟨by norm_num [otpExpiryMinutes], by norm_num [otpExpiryMinutes],
    otp_round_trip [] "9876543210" "123456" "John Doe" 0 5 11 6
      (by norm_num [otpExpiryMinutes]) (by norm_num [otpExpiryMinutes])⟩

/-- Claim C5: with a live unexpired session stored for a phone, `verify_otp`
with a wrong code returns `(False, None)` and leaves the state unchanged, so a
later `verify_otp` with the real code (still within the window) succeeds. -/
theorem verify_otp_wrong_code (σ : OtpState) (phone wrong : String)
    (sess : OtpSession) (now : ℚ)
    (hstored : dictLookup σ phone = some sess)
    (hlive : now - sess.timestamp ≤ otpExpiryMinutes)
    (hwrong : sess.otp ≠ wrong) :
    verify_otp σ phone wrong now = ((false, none), σ)
    ∧ ∀ t2 : ℚ, t2 - sess.timestamp ≤ otpExpiryMinutes →
        verify_otp σ phone sess.otp t2 = ((true, some sess.name), dictErase σ phone) := by
  constructor
  · simp [verify_otp, hstored, not_lt.mpr hlive, hwrong]
  · intro t2 ht2
    simp [verify_otp, hstored, not_lt.mpr ht2]

/-- Witness for `verify_otp_wrong_code` on the spec's example booking. -/
theorem verify_otp_wrong_code_witness :
    dictLookup [("9876543210", OtpSession.mk "482913" "John Doe" 0)] "9876543210" =
      some (OtpSession.mk "482913" "John Doe" 0)
    ∧ (2 : ℚ) - (OtpSession.mk "482913" "John Doe" 0).timestamp ≤ otpExpiryMinutes
    ∧ (OtpSession.mk "482913" "John Doe" 0).otp ≠ "000000"
    ∧ (verify_otp [("9876543210", OtpSession.mk "482913" "John Doe" 0)] "9876543210" "000000" 2 =
        ((false, none), [("9876543210", OtpSession.mk "482913" "John Doe" 0)])
      ∧ ∀ t2 : ℚ, t2 - (OtpSession.mk "482913" "John Doe" 0).timestamp ≤ otpExpiryMinutes →
          verify_otp [("9876543210", OtpSession.mk "482913" "John Doe" 0)] "9876543210"
              (OtpSession.mk "482913" "John Doe" 0).otp t2 =
            ((true, some (OtpSession.mk "482913" "John Doe" 0).name),
              dictErase [("9876543210", OtpSession.mk "482913" "John Doe" 0)] "9876543210")) :=
  ⟨by simp [dictLookup, List.find?], by norm_num [otpExpiryMinutes], by simp,
    verify_otp_wrong_code [("9876543210", OtpSession.mk "482913" "John Doe" 0)]
      "9876543210" "000000" (OtpSession.mk "482913" "John Doe" 0) 2
      (by simp [dictLookup, List.find?]) (by norm_num [otpExpiryMinutes]) (by simp)⟩

/-! ### Claim C6: one live session per phone -/

/-- A `StateManager` operation: a call to `store_otp` or `verify_otp`. -/
inductive OtpOp : Type
  | store (phone otp name : String) (now : ℚ)
  | verify (phone otp : String) (now : ℚ)

/-- State effect of one `StateManager` operation. -/
def applyOtpOp (σ : OtpState) : OtpOp → OtpState
  | OtpOp.store p o n t => store_otp σ p o n t
  | OtpOp.verify p o t => (verify_otp σ p o t).2

/-- Run a sequence of operations from the empty initial state of
`StateManager.__init__`. -/
def runOtpOps (ops : List OtpOp) : OtpState := ops.foldl applyOtpOp []

theorem verify_otp_state_cases (σ : OtpState) (p o : String) (t : ℚ) :
    (verify_otp σ p o t).2 = σ ∨ (verify_otp σ p o t).2 = dictErase σ p := by
  unfold verify_otp
  cases dictLookup σ p with
  | none => left; rfl
  | some stored =>
    by_cases hexp : otpExpiryMinutes < t - stored.timestamp
    · right; simp [hexp]
    · by_cases hotp : stored.otp = o
      · right; simp [hexp, hotp]
      · left; simp [hexp, hotp]

theorem nodup_keys_applyOtpOp (σ : OtpState) (op : OtpOp)
    (h : (σ.map Prod.fst).Nodup) : ((applyOtpOp σ op).map Prod.fst).Nodup := by
  cases op with
  | store p o n t => exact nodup_keys_dictSet σ p ⟨o, n, t⟩ h
  | verify p o t =>
    show ((verify_otp σ p o t).2.map Prod.fst).Nodup
    rcases verify_otp_state_cases σ p o t with hc | hc
    · rw [hc]; exact h
    · rw [hc]; exact nodup_keys_dictErase σ p h

/-- Claim C6: the `StateManager` holds at most one live session per phone: any
sequence of `store_otp`/`verify_otp` operations leaves the state with no
duplicate phone keys, and a new `store_otp` for an already-booked phone
overwrites the prior session entirely. -/
theorem one_session_per_phone :
    (∀ ops : List OtpOp, ((runOtpOps ops).map Prod.fst).Nodup)
    ∧ ∀ (σ : OtpState) (p o n : String) (t : ℚ),
        dictLookup (store_otp σ p o n t) p = some ⟨o, n, t⟩ := by
  constructor
  · intro ops
    unfold runOtpOps
    have : ∀ σ : OtpState, (σ.map Prod.fst).Nodup →
        ((ops.foldl applyOtpOp σ).map Prod.fst).Nodup := by
      induction ops with
      | nil => intro σ h; simpa using h
      | cons op ops ih =>
        intro σ h
        exact ih (applyOtpOp σ op) (nodup_keys_applyOtpOp σ op h)
    exact this [] (by simp)
  · intro σ p o n t
    exact dictLookup_dictSet_self σ p ⟨o, n, t⟩

/-! ## `AgentToolKit.confirm_ride` (src/mahindrabot/core/toolkit.py)

`confirm_ride(otp)` first compares the argument against the
`INTERNAL_SECRET_OTP` environment variable (`if secret_otp and otp ==
secret_otp`), then iterates over `self.state_manager._state.items()` looking
for the first session whose stored code equals the argument, verifying that
session's phone.  The environment is passed explicitly (`none` models an unset
variable), as is the current time.
-/

/-- The Python truthiness test `if secret_otp and otp == secret_otp`:
`os.getenv` yields `None` (unset) or a string, and the empty string is falsy. -/
def secretHit (envSecret : Option String) (otp : String) : Bool :=
  match envSecret with
  | some s => (!(s = "")) && (otp = s)
  | none => false

/-- Message returned when the internal secret OTP matched. -/
def internalConfirmedMsg : String :=
  "✅ Booking confirmed with internal OTP! Our team will contact you shortly to schedule your test drive."

/-- Message returned on successful OTP verification for a stored session. -/
def confirmedMsg (name phone : String) : String :=
  "✅ Booking confirmed! Thank you, " ++ name ++ ". Our team will contact you shortly at " ++
    phone ++ " to schedule your test drive."

/-- Message returned when no live session could be confirmed. -/
def invalidOtpMsg : String :=
  "❌ Invalid or expired OTP. Please request a new booking or check the OTP and try again."

/-- `AgentToolKit.confirm_ride`: the secret-OTP check, then a linear scan for
the first stored session whose code equals `otp` (the loop `break`s after the
first match, so later sessions are never tried). Returns the reply text and
the resulting state. -/
def confirm_ride (envSecret : Option String) (σ : OtpState) (otp : String) (now : ℚ) :
    String × OtpState :=
  if secretHit envSecret otp then (internalConfirmedMsg, σ)
  else
    match σ.find? (fun p => p.2.otp = otp) with
    | some (phone, _) =>
      let r := verify_otp σ phone otp now
      if r.1.1 then
        match r.1.2 with
        | some name => (confirmedMsg name phone, r.2)
        | none => (invalidOtpMsg, r.2)
      else (invalidOtpMsg, r.2)
    | none => (invalidOtpMsg, σ)

/-- Claim C7 (amended): `confirm_ride` verifies an OTP by linearly scanning all
stored sessions rather than keying by the caller's phone number: when the
first session in insertion order whose stored code equals the supplied `otp`
is live and unexpired, `confirm_ride` returns the booking-confirmed message
for that session's phone and name — regardless of which phone the caller
booked with — and deletes that session. -/
theorem confirm_ride_scans_sessions (env : Option String) (σ : OtpState)
    (otp : String) (now : ℚ) (phone : String) (sess : OtpSession)
    (hsec : secretHit env otp = false)
    (hnodup : (σ.map Prod.fst).Nodup)
    (hfind : σ.find? (fun p => p.2.otp = otp) = some (phone, sess))
    (hlive : now - sess.timestamp ≤ otpExpiryMinutes) :
    confirm_ride env σ otp now = (confirmedMsg sess.name phone, dictErase σ phone) := by
  have hmem : (phone, sess) ∈ σ := List.mem_of_find?_eq_some hfind
  have hotp : sess.otp = otp := by
    have := List.find?_some hfind
    simpa using this
  have hlook : dictLookup σ phone = some sess :=
    dictLookup_eq_of_mem_nodup σ phone sess hmem hnodup
  unfold confirm_ride
  rw [hsec]
  simp only [Bool.false_eq_true, if_false, hfind]
  simp [verify_otp, hlook, not_lt.mpr hlive, hotp]

/-- Witness for `confirm_ride_scans_sessions`: the caller who booked with phone
`"111"` confirms using the OTP issued to phone `"222"`. -/
theorem confirm_ride_scans_sessions_witness :
    secretHit none "654321" = false
    ∧ (([("111", OtpSession.mk "123456" "A" 0), ("222", OtpSession.mk "654321" "B" 0)] :
        OtpState).map Prod.fst).Nodup
    ∧ ([("111", OtpSession.mk "123456" "A" 0), ("222", OtpSession.mk "654321" "B" 0)] :
        OtpState).find? (fun p => p.2.otp = "654321") = some ("222", OtpSession.mk "654321" "B" 0)
    ∧ (5 : ℚ) - (OtpSession.mk "654321" "B" 0).timestamp ≤ otpExpiryMinutes
    ∧ confirm_ride none
        [("111", OtpSession.mk "123456" "A" 0), ("222", OtpSession.mk "654321" "B" 0)] "654321" 5 =
      (confirmedMsg (OtpSession.mk "654321" "B" 0).name "222",
        dictErase [("111", OtpSession.mk "123456" "A" 0), ("222", OtpSession.mk "654321" "B" 0)]
          "222") :=
  ⟨rfl, by simp, by simp [List.find?], by norm_num [otpExpiryMinutes],
    confirm_ride_scans_sessions none
      [("111", OtpSession.mk "123456" "A" 0), ("222", OtpSession.mk "654321" "B" 0)]
      "654321" 5 "222" (OtpSession.mk "654321" "B" 0) rfl (by simp)
      (by simp [List.find?]) (by norm_num [otpExpiryMinutes])⟩

/-- Counterexample to claim C7 as stated: the state holds a live unexpired
session (phone `"222"`) whose code equals the supplied OTP, yet `confirm_ride`
returns the invalid-OTP message, because the scan stops at the first matching
session (phone `"111"`), which has expired. -/
theorem confirm_ride_first_match_counterexample :
    dictLookup [("111", OtpSession.mk "111111" "A" 0), ("222", OtpSession.mk "111111" "B" 20)]
        "222" = some (OtpSession.mk "111111" "B" 20)
    ∧ (21 : ℚ) - (OtpSession.mk "111111" "B" 20).timestamp ≤ otpExpiryMinutes
    ∧ (OtpSession.mk "111111" "B" 20).otp = "111111"
    ∧ (confirm_ride none
        [("111", OtpSession.mk "111111" "A" 0), ("222", OtpSession.mk "111111" "B" 20)]
        "111111" 21).1 = invalidOtpMsg
    ∧ invalidOtpMsg ≠ confirmedMsg "B" "222" := by
  refine ⟨?_, ?_, rfl, ?_, ?_⟩
  · simp [dictLookup, List.find?]
  · norm_num [otpExpiryMinutes]
  · norm_num [confirm_ride, secretHit, verify_otp, dictLookup, dictErase, List.find?,
      otpExpiryMinutes]
  · decide

/-- Claim C10 (amended): if `INTERNAL_SECRET_OTP` is set to a non-empty value
and the supplied OTP equals it, `confirm_ride` returns the booking-confirmed
message without consulting any stored session, and the session store is left
unchanged — even when no session exists at all. -/
theorem confirm_ride_internal_secret (s otp : String) (σ : OtpState) (now : ℚ)
    (hs : s ≠ "") (heq : otp = s) :
    confirm_ride (some s) σ otp now = (internalConfirmedMsg, σ) := by
  have : secretHit (some s) otp = true := by simp [secretHit, hs, heq]
  simp [confirm_ride, this]

/-- Witness for `confirm_ride_internal_secret` with an empty session store. -/
theorem confirm_ride_internal_secret_witness :
    ("letmein" : String) ≠ "" ∧ ("letmein" : String) = "letmein" ∧
    confirm_ride (some "letmein") [] "letmein" 0 = (internalConfirmedMsg, []) :=
  ⟨by decide, rfl, confirm_ride_internal_secret "letmein" "letmein" [] 0 (by decide) rfl⟩

/-- Counterexample to claim C10 as stated: with `INTERNAL_SECRET_OTP` set to
the empty string and an empty OTP argument equal to it, the Python truthiness
guard `if secret_otp and ...` skips the backdoor and `confirm_ride` falls
through to the (empty) session scan, returning the invalid-OTP message. -/
theorem confirm_ride_internal_secret_counterexample :
    confirm_ride (some "") [] "" 0 = (invalidOtpMsg, [])
    ∧ invalidOtpMsg ≠ internalConfirmedMsg := by
  constructor
  · simp [confirm_ride, secretHit, List.find?]
  · decide

/-! ## `FAQService` cache validation (src/mahindrabot/services/faq_service.py)

`__init__` loads the embedding matrices from `.temp/faq_embeddings.json` iff
the cache file exists and `_validate_cache` accepts it.  A cache file holds a
`"questions"` matrix, an `"answers"` matrix and a `"metadata"` record list;
`_validate_cache` checks that the three keys are present, that the three
lists have equal length, and that this length equals the current FAQ count.
-/

/-- One FAQ record, as assembled in `FAQService.__init__` (`id` is the
stringified load index). -/
structure FAQ where
  id : String
  question : String
  answer : String
  category : String
  subcategory : String
deriving DecidableEq

/-- Parsed content of the embedding cache file; each field is `none` when the
corresponding JSON key is missing (the `required_keys` check).  The scalar
type of the stored matrices is irrelevant to validation and kept abstract. -/
structure FAQCacheFile (α : Type) where
  questions : Option (List (List α))
  answers : Option (List (List α))
  metadata : Option (List FAQ)

/-- `FAQService._validate_cache`: required keys present, matrix and metadata
lengths all equal, and metadata count equal to the current FAQ count. -/
def validate_cache {α : Type} (cache : FAQCacheFile α) (faqs : List FAQ) : Bool :=
  match cache.questions, cache.answers, cache.metadata with
  | some qs, some ans, some md =>
    if qs.length ≠ ans.length ∨ qs.length ≠ md.length then false
    else if md.length ≠ faqs.length then false
    else true
  | _, _, _ => false

/-- The load decision of `FAQService.__init__`: embeddings come from the cache
iff the cache file exists (`none` models a missing file) and validates;
otherwise they are recomputed via the embedding API. -/
def loadsFromCache {α : Type} (cacheFile : Option (FAQCacheFile α)) (faqs : List FAQ) : Bool :=
  match cacheFile with
  | some c => validate_cache c faqs
  | none => false

/-- Counterexample to claim C4 as stated: a cache whose metadata lists the
same records in a different order (same count) still validates, so the stale
matrices are loaded instead of being recomputed. -/
theorem validate_cache_ignores_ordering :
    validate_cache
      (FAQCacheFile.mk (some [[(1 : ℚ)], [2]]) (some [[(1 : ℚ)], [2]])
        (some [FAQ.mk "1" "q1" "a1" "c" "s", FAQ.mk "0" "q0" "a0" "c" "s"]))
      [FAQ.mk "0" "q0" "a0" "c" "s", FAQ.mk "1" "q1" "a1" "c" "s"] = true
    ∧ [FAQ.mk "1" "q1" "a1" "c" "s", FAQ.mk "0" "q0" "a0" "c" "s"] ≠
      [FAQ.mk "0" "q0" "a0" "c" "s", FAQ.mk "1" "q1" "a1" "c" "s"] := by
  constructor
  · rfl
  · decide

/-- Claim C4 (amended): `FAQService.__init__` loads the cached matrices iff the
cache file exists, has the three required keys, the two matrices and the
metadata have equal lengths, and that length equals the current record count.
The fingerprint checks only the count — the ordering (or content) of the
cached records is not compared, so a same-count reordering does not invalidate
the cache. -/
theorem loadsFromCache_spec (α : Type) (cacheFile : Option (FAQCacheFile α))
    (faqs : List FAQ) :
    loadsFromCache cacheFile faqs = true ↔
      ∃ c qs ans md, cacheFile = some c ∧ c.questions = some qs ∧ c.answers = some ans ∧
        c.metadata = some md ∧ qs.length = ans.length ∧ qs.length = md.length ∧
        md.length = faqs.length := by
  cases cacheFile with
  | none => simp [loadsFromCache]
  | some c =>
    obtain ⟨oqs, oans, omd⟩ := c
    cases oqs with
    | none => simp [loadsFromCache, validate_cache]
    | some qs =>
      cases oans with
      | none => simp [loadsFromCache, validate_cache]
      | some ans =>
        cases omd with
        | none => simp [loadsFromCache, validate_cache]
        | some md =>
          have hval :
              validate_cache (FAQCacheFile.mk (some qs) (some ans) (some md)) faqs = true ↔
                qs.length = ans.length ∧ qs.length = md.length ∧ md.length = faqs.length := by
            unfold validate_cache
            dsimp only
            split_ifs with h1 h2
            · simp only [Bool.false_eq_true, false_iff, not_and]
              intro l1 l2 _
              rcases h1 with h | h
              · exact h l1
              · exact h l2
            · simp only [Bool.false_eq_true, false_iff, not_and]
              intro _ _ l3
              exact h2 l3
            · push_neg at h1
              have h3 := not_not.mp h2
              simp only [true_iff]
              exact ⟨h1.1, h1.2, h3⟩
          simp only [loadsFromCache]
          rw [hval]
          constructor
          · rintro ⟨l1, l2, l3⟩
            exact ⟨_, qs, ans, md, rfl, rfl, rfl, rfl, l1, l2, l3⟩
          · rintro ⟨c, qs', ans', md', hc, hq, ha, hm, l1, l2, l3⟩
            obtain rfl : FAQCacheFile.mk (some qs) (some ans) (some md) = c := by
              injection hc
            simp only [Option.some.injEq] at hq ha hm
            subst hq
            subst ha
            subst hm
            exact ⟨l1, l2, l3⟩

/-! ## `FAQService.search` (src/mahindrabot/services/faq_service.py)

Embedding vectors are lists of real numbers: ideal real arithmetic stands in
for numpy's floating point, which is faithful up to rounding as long as no
division by a zero norm occurs (the nonzero-norm hypotheses below delimit
that domain; the NaN behaviour of the zero-norm case is modelled separately).
The query is represented by its embedding vector, since `get_embeddings` is an
external API call.
-/

/-- `np.dot` on two equal-length vectors. -/
def dotl (a b : List ℝ) : ℝ := (List.zipWith (fun x y => x * y) a b).sum

/-- `np.linalg.norm`: the Euclidean norm. -/
noncomputable def normv (v : List ℝ) : ℝ := Real.sqrt (dotl v v)

/-- `cosine_similarity(a, b)`: `np.dot(a, b) / (np.linalg.norm(a) * np.linalg.norm(b))`. -/
noncomputable def cosine_similarity (a b : List ℝ) : ℝ :=
  dotl a b / (normv a * normv b)

/-- Division of a vector by its own norm, as in the two normalization steps of
`cosine_similarity_batch`. -/
noncomputable def vecNormalize (v : List ℝ) : List ℝ :=
  v.map (fun x => x / normv v)

/-- `cosine_similarity_batch(query_embedding, embeddings)`: normalize the
query, normalize every row, and take the row-by-row dot product. -/
noncomputable def cosine_similarity_batch (query_embedding : List ℝ)
    (embeddings : List (List ℝ)) : List ℝ :=
  (embeddings.map vecNormalize).map (fun row => dotl row (vecNormalize query_embedding))

/-- A search hit (`QNAResult` in services/serializers.py): one FAQ record with
its relevance score. -/
structure QNAResult where
  id : String
  question : String
  answer : String
  score : ℝ
  category : String
  subcategory : String

/-- Build a `QNAResult` from a record and a score, as in the comprehension at
the end of `FAQService.search`. -/
def faqToResult (f : FAQ) (score : ℝ) : QNAResult :=
  ⟨f.id, f.question, f.answer, score, f.category, f.subcategory⟩

/-- The state of an initialized `FAQService`: the record list and the two
embedding matrices (row `i` of each belongs to record `i`). -/
structure FAQServiceState where
  faqs : List FAQ
  question_embeddings : List (List ℝ)
  answer_embeddings : List (List ℝ)

/-- Body of the second loop of `FAQService.search` (merge an answer-similarity
entry into `results_dict`, keeping the higher score). -/
noncomputable def mergeStep (d : List (String × (FAQ × ℝ))) (e : FAQ × ℝ) :
    List (String × (FAQ × ℝ)) :=
  match dictLookup d e.1.id with
  | some pr => if pr.2 < e.2 then dictSet d e.1.id e else d
  | none => dictSet d e.1.id e

/-- `results_dict` of `FAQService.search`: the first loop inserts every record
with its question similarity; the second merges the answer similarities. -/
noncomputable def searchDict (faqs : List FAQ) (qsims asims : List ℝ) :
    List (String × (FAQ × ℝ)) :=
  let d1 := (faqs.zip qsims).foldl (fun d e => dictSet d e.1.id e) []
  (faqs.zip asims).foldl mergeStep d1

/-- Sort key of `results.sort(key=lambda x: x.score, reverse=True)`: Python's
stable sort with `reverse=True` keeps `a` before `b` when `b.score ≤ a.score`. -/
noncomputable def scoreDescLe (a b : QNAResult) : Bool :=
  decide (b.score ≤ a.score)

/-- `FAQService.search`: score both matrices, merge by record id keeping the
higher score, sort by descending score and truncate to `limit`. -/
noncomputable def faq_search (s : FAQServiceState) (query_embedding : List ℝ)
    (limit : ℕ) : List QNAResult :=
  let question_similarities := cosine_similarity_batch query_embedding s.question_embeddings
  let answer_similarities := cosine_similarity_batch query_embedding s.answer_embeddings
  let d := searchDict s.faqs question_similarities answer_similarities
  let results := d.map (fun p => faqToResult p.2.1 p.2.2)
  (results.mergeSort scoreDescLe).take limit

/-- The behaviour the specification describes, written from its words: each
record `i` is scored `max(cos(query, question_i), cos(query, answer_i))`, and
the result list is sorted by descending score and truncated to `limit`. -/
noncomputable def faq_search_from_spec (s : FAQServiceState) (query_embedding : List ℝ)
    (limit : ℕ) : List QNAResult :=
  let scored := (s.faqs.zip (s.question_embeddings.zip s.answer_embeddings)).map
    (fun p => faqToResult p.1
      (max (cosine_similarity query_embedding p.2.1) (cosine_similarity query_embedding p.2.2)))
  (scored.mergeSort scoreDescLe).take limit

theorem dotl_comm (a b : List ℝ) : dotl a b = dotl b a := by
  unfold dotl
  rw [List.zipWith_comm_of_comm (fun x y => x * y) mul_comm]

theorem dotl_map_div (a b : List ℝ) (c d : ℝ) :
    dotl (a.map (fun x => x / c)) (b.map (fun y => y / d)) = dotl a b / (c * d) := by
  induction a generalizing b with
  | nil => simp [dotl]
  | cons x a ih =>
    cases b with
    | nil => simp [dotl]
    | cons y b =>
      simp only [List.map_cons, dotl, List.zipWith_cons_cons, List.sum_cons] at *
      rw [ih, div_mul_div_comm, div_add_div_same]

theorem dotl_vecNormalize (a b : List ℝ) :
    dotl (vecNormalize a) (vecNormalize b) = dotl a b / (normv a * normv b) := by
  unfold vecNormalize
  exact dotl_map_div a b (normv a) (normv b)

/-- Each entry of `cosine_similarity_batch` is the two-vector
`cosine_similarity` of the query with the corresponding row. -/
theorem cosine_similarity_batch_eq_map (q : List ℝ) (M : List (List ℝ)) :
    cosine_similarity_batch q M = M.map (fun row => cosine_similarity q row) := by
  unfold cosine_similarity_batch
  rw [List.map_map]
  apply List.map_congr_left
  intro row _
  show dotl (vecNormalize row) (vecNormalize q) = cosine_similarity q row
  rw [dotl_vecNormalize, cosine_similarity, dotl_comm, mul_comm]

theorem dictSet_fresh {β : Type} (d : List (String × β)) (k : String) (v : β)
    (h : (d.any fun p => decide (p.1 = k)) = false) : dictSet d k v = d ++ [(k, v)] := by
  unfold dictSet
  rw [h]
  simp

theorem dictSet_cons_ne {β : Type} (p : String × β) (d : List (String × β))
    (k : String) (v : β) (h : p.1 ≠ k) :
    dictSet (p :: d) k v = p :: dictSet d k v := by
  unfold dictSet
  have hd : (decide (p.1 = k)) = false := by simp [h]
  rw [List.any_cons, hd, Bool.false_or]
  by_cases hany : (d.any fun q => decide (q.1 = k)) = true
  · rw [if_pos hany, if_pos hany, List.map_cons, if_neg h]
  · rw [if_neg hany, if_neg hany, List.cons_append]

theorem dictLookup_cons_ne {β : Type} (p : String × β) (d : List (String × β))
    (k : String) (h : p.1 ≠ k) :
    dictLookup (p :: d) k = dictLookup d k := by
  have hd : (decide (p.1 = k)) = false := by simp [h]
  unfold dictLookup
  simp only [List.find?, hd]

theorem foldl_dictSet_fresh (es : List (FAQ × ℝ)) (d : List (String × (FAQ × ℝ)))
    (hdisj : ∀ e ∈ es, e.1.id ∉ d.map Prod.fst)
    (hnd : (es.map (fun e => e.1.id)).Nodup) :
    es.foldl (fun acc e => dictSet acc e.1.id e) d =
      d ++ es.map (fun e => (e.1.id, e)) := by
  induction es generalizing d with
  | nil => simp
  | cons e es ih =>
    simp only [List.map_cons, List.nodup_cons] at hnd
    have hfresh : (d.any fun p => decide (p.1 = e.1.id)) = false := by
      rw [List.any_eq_false]
      intro p hp
      simp only [decide_eq_true_eq]
      intro hpk
      exact hdisj e (List.mem_cons_self e es) (hpk ▸ List.mem_map_of_mem Prod.fst hp)
    rw [List.foldl_cons, dictSet_fresh d e.1.id e hfresh,
      ih (d ++ [(e.1.id, e)]) ?_ hnd.2]
    · simp
    · intro x hx
      rw [List.map_append, List.mem_append]
      rintro (hxd | hxe)
      · exact hdisj x (List.mem_cons_of_mem e hx) hxd
      · simp only [List.map_cons, List.map_nil, List.mem_singleton] at hxe
        exact hnd.1 (hxe ▸ List.mem_map_of_mem (fun e => e.1.id) hx)

theorem mergeStep_cons_ne (p : String × (FAQ × ℝ)) (d : List (String × (FAQ × ℝ)))
    (e : FAQ × ℝ) (h : p.1 ≠ e.1.id) :
    mergeStep (p :: d) e = p :: mergeStep d e := by
  unfold mergeStep
  rw [dictLookup_cons_ne p d e.1.id h]
  cases dictLookup d e.1.id with
  | none => exact dictSet_cons_ne p d e.1.id e h
  | some pr =>
    dsimp only
    by_cases hlt : pr.2 < e.2
    · rw [if_pos hlt, if_pos hlt]
      exact dictSet_cons_ne p d e.1.id e h
    · rw [if_neg hlt, if_neg hlt]

theorem foldl_mergeStep_cons (p : String × (FAQ × ℝ)) (d : List (String × (FAQ × ℝ)))
    (l : List (FAQ × ℝ)) (h : ∀ e ∈ l, p.1 ≠ e.1.id) :
    l.foldl mergeStep (p :: d) = p :: l.foldl mergeStep d := by
  induction l generalizing d with
  | nil => rfl
  | cons e l ih =>
    rw [List.foldl_cons, mergeStep_cons_ne p d e (h e (List.mem_cons_self e l)),
      List.foldl_cons]
    exact ih _ (fun x hx => h x (List.mem_cons_of_mem e hx))

theorem mergeStep_cons_head (d : List (String × (FAQ × ℝ))) (e : FAQ × ℝ) (q0 : ℝ)
    (hd : ∀ p ∈ d, p.1 ≠ e.1.id) :
    mergeStep ((e.1.id, (e.1, q0)) :: d) e =
      (e.1.id, (e.1, if q0 < e.2 then e.2 else q0)) :: d := by
  unfold mergeStep
  have hlook : dictLookup ((e.1.id, (e.1, q0)) :: d) e.1.id = some (e.1, q0) := by
    simp [dictLookup, List.find?]
  rw [hlook]
  have hset : dictSet ((e.1.id, (e.1, q0)) :: d) e.1.id e = (e.1.id, e) :: d := by
    unfold dictSet
    have hany : (((e.1.id, (e.1, q0)) :: d).any fun p => decide (p.1 = e.1.id)) = true := by
      simp
    rw [if_pos hany, List.map_cons, if_pos rfl]
    congr 1
    conv_rhs => rw [← List.map_id d]
    apply List.map_congr_left
    intro p hp
    simp [hd p hp]
  dsimp only
  by_cases hlt : q0 < e.2
  · rw [if_pos hlt, if_pos hlt, hset]
  · rw [if_neg hlt, if_neg hlt]

theorem foldl_mergeStep_zip (fs : List FAQ) (qs as : List ℝ)
    (hq : qs.length = fs.length) (ha : as.length = fs.length)
    (hnd : (fs.map FAQ.id).Nodup) :
    (fs.zip as).foldl mergeStep ((fs.zip qs).map (fun e => (e.1.id, e))) =
      (fs.zip (qs.zip as)).map
        (fun p => (p.1.id, (p.1, if p.2.1 < p.2.2 then p.2.2 else p.2.1))) := by
  induction fs generalizing qs as with
  | nil => simp
  | cons f fs ih =>
    cases qs with
    | nil => simp at hq
    | cons q qs =>
      cases as with
      | nil => simp at ha
      | cons a as =>
        simp only [List.length_cons, Nat.add_right_cancel_iff] at hq ha
        simp only [List.map_cons, List.nodup_cons] at hnd
        have hids : ∀ (x : FAQ × ℝ) (l : List ℝ), x ∈ fs.zip l → f.id ≠ x.1.id := by
          intro x l hx hcontra
          have hx1 : x.1 ∈ fs := (List.of_mem_zip hx).1
          exact hnd.1 (hcontra ▸ List.mem_map_of_mem FAQ.id hx1)
        rw [List.zip_cons_cons, List.zip_cons_cons, List.map_cons, List.foldl_cons]
        rw [show ((f, q).1.id, (f, q)) = (((f, a) : FAQ × ℝ).1.id, (((f, a) : FAQ × ℝ).1, q))
          from rfl]
        rw [mergeStep_cons_head ((fs.zip qs).map (fun e => (e.1.id, e))) (f, a) q ?hd]
        case hd =>
          intro p hp
          rcases List.mem_map.mp hp with ⟨x, hx, rfl⟩
          exact fun hc => hids x qs hx hc.symm
        rw [foldl_mergeStep_cons _ _ (fs.zip as) (fun e he => hids e as he)]
        rw [ih qs as hq ha hnd.2]
        rfl

theorem searchDict_eq (faqs : List FAQ) (qsims asims : List ℝ)
    (hq : qsims.length = faqs.length) (ha : asims.length = faqs.length)
    (hnd : (faqs.map FAQ.id).Nodup) :
    searchDict faqs qsims asims =
      (faqs.zip (qsims.zip asims)).map
        (fun p => (p.1.id, (p.1, if p.2.1 < p.2.2 then p.2.2 else p.2.1))) := by
  unfold searchDict
  rw [foldl_dictSet_fresh (faqs.zip qsims) [] (by simp) ?_]
  · rw [List.nil_append]
    exact foldl_mergeStep_zip faqs qsims asims hq ha hnd
  · have hmapid : (faqs.zip qsims).map (fun e => e.1.id) = faqs.map FAQ.id := by
      rw [show (fun e : FAQ × ℝ => e.1.id) = (FAQ.id ∘ Prod.fst) from rfl, ← List.map_map,
        List.map_fst_zip faqs qsims (le_of_eq hq.symm)]
    rw [hmapid]
    exact hnd

theorem ite_lt_eq_max (q a : ℝ) : (if q < a then a else q) = max q a := by
  rcases lt_or_ge q a with h | h
  · rw [if_pos h, max_eq_right h.le]
  · rw [if_neg (not_lt.mpr h), max_eq_left h]

/-- Claim C1: for every FAQ index and query, `FAQService.search` gives record
`i` the merged score `max(cos(query, question_i), cos(query, answer_i))`, with
the result list sorted by descending score and truncated to the limit — i.e.
it coincides with the ranking described by the specification.  The nonzero
norm hypotheses delimit the domain where ideal real arithmetic models the
floating-point computation (no division by a zero norm occurs). -/
theorem faq_search_spec (s : FAQServiceState) (query_embedding : List ℝ) (limit : ℕ)
    (hlq : s.question_embeddings.length = s.faqs.length)
    (hla : s.answer_embeddings.length = s.faqs.length)
    (hids : (s.faqs.map FAQ.id).Nodup)
    (hq : normv query_embedding ≠ 0)
    (hQ : ∀ v ∈ s.question_embeddings, normv v ≠ 0)
    (hA : ∀ v ∈ s.answer_embeddings, normv v ≠ 0) :
    faq_search s query_embedding limit = faq_search_from_spec s query_embedding limit
    ∧ List.Pairwise (fun x y : QNAResult => y.score ≤ x.score)
        (faq_search s query_embedding limit) := by
  have hlen1 : (cosine_similarity_batch query_embedding s.question_embeddings).length =
      s.faqs.length := by
    rw [cosine_similarity_batch_eq_map, List.length_map, hlq]
  have hlen2 : (cosine_similarity_batch query_embedding s.answer_embeddings).length =
      s.faqs.length := by
    rw [cosine_similarity_batch_eq_map, List.length_map, hla]
  have key : (searchDict s.faqs
        (cosine_similarity_batch query_embedding s.question_embeddings)
        (cosine_similarity_batch query_embedding s.answer_embeddings)).map
          (fun p => faqToResult p.2.1 p.2.2) =
      (s.faqs.zip (s.question_embeddings.zip s.answer_embeddings)).map
        (fun p => faqToResult p.1
          (max (cosine_similarity query_embedding p.2.1)
            (cosine_similarity query_embedding p.2.2))) := by
    rw [searchDict_eq _ _ _ hlen1 hlen2 hids, cosine_similarity_batch_eq_map,
      cosine_similarity_batch_eq_map, List.zip_map, List.zip_map_right,
      List.map_map, List.map_map]
    apply List.map_congr_left
    intro p _
    show faqToResult p.1 (if cosine_similarity query_embedding p.2.1 <
        cosine_similarity query_embedding p.2.2 then
          cosine_similarity query_embedding p.2.2
        else cosine_similarity query_embedding p.2.1) = _
    rw [ite_lt_eq_max]
  constructor
  · unfold faq_search faq_search_from_spec
    dsimp only
    rw [key]
  · have htrans : ∀ a b c : QNAResult, scoreDescLe a b = true → scoreDescLe b c = true →
        scoreDescLe a c = true := by
      intro a b c hab hbc
      simp only [scoreDescLe, decide_eq_true_eq] at *
      exact le_trans hbc hab
    have htotal : ∀ a b : QNAResult, (scoreDescLe a b || scoreDescLe b a) = true := by
      intro a b
      simp only [scoreDescLe, Bool.or_eq_true, decide_eq_true_eq]
      exact le_total b.score a.score
    have hsorted := List.sorted_mergeSort htrans htotal
      ((searchDict s.faqs
        (cosine_similarity_batch query_embedding s.question_embeddings)
        (cosine_similarity_batch query_embedding s.answer_embeddings)).map
          (fun p => faqToResult p.2.1 p.2.2))
    have hsub := List.Pairwise.sublist (List.take_sublist limit _) hsorted
    unfold faq_search
    dsimp only
    exact hsub.imp (fun h => by simpa [scoreDescLe] using h)

theorem normv_unit_ne (v : List ℝ) (h : dotl v v = 1) : normv v ≠ 0 := by
  rw [normv, h, Real.sqrt_one]
  exact one_ne_zero

/-- Witness for `faq_search_spec` on a two-record index with orthonormal
embedding rows and the query equal to the first question embedding. -/
theorem faq_search_spec_witness :
    ([[(1 : ℝ), 0], [0, 1]] : List (List ℝ)).length =
      [FAQ.mk "0" "q0" "a0" "c" "s", FAQ.mk "1" "q1" "a1" "c" "s"].length
    ∧ ([[(0 : ℝ), 1], [1, 0]] : List (List ℝ)).length =
      [FAQ.mk "0" "q0" "a0" "c" "s", FAQ.mk "1" "q1" "a1" "c" "s"].length
    ∧ ([FAQ.mk "0" "q0" "a0" "c" "s", FAQ.mk "1" "q1" "a1" "c" "s"].map FAQ.id).Nodup
    ∧ normv [(1 : ℝ), 0] ≠ 0
    ∧ (∀ v ∈ ([[(1 : ℝ), 0], [0, 1]] : List (List ℝ)), normv v ≠ 0)
    ∧ (∀ v ∈ ([[(0 : ℝ), 1], [1, 0]] : List (List ℝ)), normv v ≠ 0)
    ∧ (faq_search
        (FAQServiceState.mk [FAQ.mk "0" "q0" "a0" "c" "s", FAQ.mk "1" "q1" "a1" "c" "s"]
          [[(1 : ℝ), 0], [0, 1]] [[(0 : ℝ), 1], [1, 0]]) [(1 : ℝ), 0] 1 =
      faq_search_from_spec
        (FAQServiceState.mk [FAQ.mk "0" "q0" "a0" "c" "s", FAQ.mk "1" "q1" "a1" "c" "s"]
          [[(1 : ℝ), 0], [0, 1]] [[(0 : ℝ), 1], [1, 0]]) [(1 : ℝ), 0] 1
    ∧ List.Pairwise (fun x y : QNAResult => y.score ≤ x.score)
        (faq_search
          (FAQServiceState.mk [FAQ.mk "0" "q0" "a0" "c" "s", FAQ.mk "1" "q1" "a1" "c" "s"]
            [[(1 : ℝ), 0], [0, 1]] [[(0 : ℝ), 1], [1, 0]]) [(1 : ℝ), 0] 1)) := by
  have h1 : normv [(1 : ℝ), 0] ≠ 0 := normv_unit_ne _ (by norm_num [dotl])
  have h2 : ∀ v ∈ ([[(1 : ℝ), 0], [0, 1]] : List (List ℝ)), normv v ≠ 0 := by
    intro v hv
    simp only [List.mem_cons, List.not_mem_nil, or_false] at hv
    rcases hv with rfl | rfl
    · exact normv_unit_ne _ (by norm_num [dotl])
    · exact normv_unit_ne _ (by norm_num [dotl])
  have h3 : ∀ v ∈ ([[(0 : ℝ), 1], [1, 0]] : List (List ℝ)), normv v ≠ 0 := by
    intro v hv
    simp only [List.mem_cons, List.not_mem_nil, or_false] at hv
    rcases hv with rfl | rfl
    · exact normv_unit_ne _ (by norm_num [dotl])
    · exact normv_unit_ne _ (by norm_num [dotl])
  exact ⟨rfl, rfl, by decide, h1, h2, h3,
    faq_search_spec
      (FAQServiceState.mk [FAQ.mk "0" "q0" "a0" "c" "s", FAQ.mk "1" "q1" "a1" "c" "s"]
        [[(1 : ℝ), 0], [0, 1]] [[(0 : ℝ), 1], [1, 0]]) [(1 : ℝ), 0] 1
      rfl rfl (by decide) h1 h2 h3⟩

/-! ### The zero-norm edge case (claim C3)

`cosine_similarity_batch` divides every row — and the query — by its own norm
with no special case.  Over IEEE floats a zero-norm row is the zero vector, so
numpy computes `0.0 / 0.0 = NaN` for each component (emitting a
`RuntimeWarning`, not raising), and the record's score comes out as NaN, not
0.  The model below tracks non-real results explicitly: `none` stands for the
NaN (or infinite) outcome of dividing by zero, and propagates through
arithmetic the way NaN does.
-/

/-- IEEE-style division: dividing by `0.0` never yields a real number
(`0.0/0.0` is NaN, `x/0.0` is `±inf`), and NaN operands propagate. -/
noncomputable def fdiv (x y : Option ℝ) : Option ℝ :=
  match x, y with
  | some a, some b => if b = 0 then none else some (a / b)
  | _, _ => none

/-- Multiplication with NaN propagation. -/
def fmul (x y : Option ℝ) : Option ℝ :=
  match x, y with
  | some a, some b => some (a * b)
  | _, _ => none

/-- Addition with NaN propagation. -/
def fadd (x y : Option ℝ) : Option ℝ :=
  match x, y with
  | some a, some b => some (a + b)
  | _, _ => none

/-- Sum with NaN propagation. -/
def fsum (l : List (Option ℝ)) : Option ℝ := l.foldr fadd (some 0)

/-- `np.dot` with NaN propagation. -/
def fdot (a b : List (Option ℝ)) : Option ℝ := fsum (List.zipWith fmul a b)

/-- The row normalization `v / np.linalg.norm(v)` with NaN tracking. -/
noncomputable def fnormalize (v : List ℝ) : List (Option ℝ) :=
  v.map (fun x => fdiv (some x) (some (normv v)))

/-- `cosine_similarity_batch` with NaN tracking. -/
noncomputable def cosine_similarity_batchF (query_embedding : List ℝ)
    (embeddings : List (List ℝ)) : List (Option ℝ) :=
  (embeddings.map fnormalize).map (fun row => fdot row (fnormalize query_embedding))

/-- Claim C3 (code bug): for a record whose embedding has zero norm,
`cosine_similarity_batch` performs the division by the zero norm anyway.
numpy does not raise (it warns and yields NaN), but the record's score is NaN
— not the score of 0 that the specification prescribes.  Concretely, with
query `[1, 0]` and rows `[[1, 0], [0, 0]]`, the second row has zero norm and
its score is non-real (`none`), while the claim requires `some 0`. -/
theorem zero_norm_score_is_nan :
    normv [(0 : ℝ), 0] = 0
    ∧ cosine_similarity_batchF [(1 : ℝ), 0] [[(1 : ℝ), 0], [0, 0]] = [some 1, none]
    ∧ (none : Option ℝ) ≠ some 0 := by
  have hn0 : normv [(0 : ℝ), 0] = 0 := by
    have h : dotl [(0 : ℝ), 0] [(0 : ℝ), 0] = 0 := by norm_num [dotl]
    rw [normv, h, Real.sqrt_zero]
  have hn1 : normv [(1 : ℝ), 0] = 1 := by
    have h : dotl [(1 : ℝ), 0] [(1 : ℝ), 0] = 1 := by norm_num [dotl]
    rw [normv, h, Real.sqrt_one]
  refine ⟨hn0, ?_, by simp⟩
  unfold cosine_similarity_batchF fnormalize
  simp only [List.map_cons, List.map_nil]
  rw [hn0, hn1]
  norm_num [fdiv, fdot, fsum, fadd, fmul]

/-! ## `CarService` (src/mahindrabot/services/car_service.py)

Only the fields of the Pydantic `CarDetail` model that the filter, sort and
lookup code reads are represented.  The external fuzzy matcher (`thefuzz`'s
`process.extract` and `fuzz.partial_ratio`) is carried as two opaque fields of
the service; the well-formedness assumption `ExtractWF` states only that
suggested candidates come from the candidate list handed to the matcher.
-/

/-- Python `str.lower` (ASCII case folding). -/
def strLower (s : String) : String := String.mk (s.data.map Char.toLower)

/-- Python's `in` on strings: substring containment. -/
def substrB (needle hay : String) : Bool := decide (needle.data <:+: hay.data)

/-- Lexicographic comparison of character lists by code point, as Python
compares strings. -/
def lexLe : List Char → List Char → Bool
  | [], _ => true
  | _ :: _, [] => false
  | c :: cs, d :: ds =>
    if c.toNat < d.toNat then true
    else if d.toNat < c.toNat then false
    else lexLe cs ds

/-- Python `sorted` on a list of strings. -/
def sortStrings (l : List String) : List String :=
  l.mergeSort (fun a b => lexLe a.data b.data)

/-- `engine.displacement` entry. -/
structure DisplacementValue where
  value : ℤ
  unit : String

/-- `basic_info` (fields read by search/filtering). -/
structure BasicInfo where
  name : String
  manufacturer : Option String
  model : String
  body_type : Option String

/-- `engine` (fields read by filtering/sorting). -/
structure Engine where
  displacement : Option (List DisplacementValue)
  fuel_type : Option (List String)

/-- The `fuel.efficiency` dict: each field is `none` when the key is absent
(an empty dict — falsy in Python — is the all-`none` record). -/
structure FuelEfficiency where
  value : Option ℚ
  min : Option ℚ
  max : Option ℚ

/-- `fuel`. -/
structure Fuel where
  type : List String
  efficiency : Option FuelEfficiency

/-- `dimensions` (`seating_capacity` is a required `int`). -/
structure Dimensions where
  seating_capacity : ℤ

/-- `price`. -/
structure Price where
  value : ℤ

/-- `brand` (`name` is a required `str`, possibly empty). -/
structure Brand where
  name : String

/-- The `CarDetail` record, restricted to the fields the service reads. -/
structure CarDetail where
  id : String
  basic_info : BasicInfo
  price : Price
  brand : Brand
  engine : Option Engine
  transmission : Option (List String)
  fuel : Option Fuel
  dimensions : Option Dimensions

/-- `CarDetail.get_basic_only`: a copy with the extended fields reset. -/
def getBasicOnly (car : CarDetail) : CarDetail :=
  { car with engine := none, transmission := none, fuel := none, dimensions := none }

/-- The error taxonomy of the catalog layer: `CarNotFoundError`,
`InvalidFilterError` (with its structured payload) and `ValueError`. -/
inductive CarErr : Type
  | carNotFound (msg : String)
  | invalidFilter (filter_name invalid_value : String) (suggestions : List String)
  | valueError (msg : String)

/-- The message `InvalidFilterError.__init__` builds (at most five suggestions
are listed). -/
def invalidFilterMessage (filter_name invalid_value : String)
    (suggestions : List String) : String :=
  "Invalid " ++ filter_name ++ ": '" ++ invalid_value ++ "'\nDid you mean one of these?\n" ++
    String.join ((List.enumFrom 1 (suggestions.take 5)).map
      (fun p => "  " ++ toString p.1 ++ ". " ++ p.2 ++ "\n"))

/-- The message of `CarNotFoundError` raised by `get_car_details`. -/
def carNotFoundMessage (car_id : String) (suggestions : List String) : String :=
  "Car '" ++ car_id ++ "' not found.\nDid you mean one of these?\n" ++
    String.intercalate "\n"
      ((List.enumFrom 1 suggestions).map (fun p => "  " ++ toString p.1 ++ ". " ++ p.2))

/-- `str(e)` for the modelled exceptions. -/
def carErrStr : CarErr → String
  | CarErr.carNotFound msg => msg
  | CarErr.invalidFilter f v s => invalidFilterMessage f v s
  | CarErr.valueError msg => msg

/-- An initialized `CarService`: the car dict (keyed by lowercase id, in load
order), the four available-value sets collected by `_load_cars` (as lists),
the fuzzy threshold, and the two external `thefuzz` entry points —
`extract q candidates limit` models `process.extract` and `fuzzScore q s`
models `fuzz.partial_ratio`. -/
structure CarService where
  cars : List (String × CarDetail)
  available_brands : List String
  available_body_types : List String
  available_fuel_types : List String
  available_transmissions : List String
  fuzzy_threshold : ℤ
  extract : String → List String → ℕ → List (String × ℤ)
  fuzzScore : String → String → ℤ

/-- The only assumption made about the external fuzzy matcher: every
suggestion it returns is one of the candidates it was given. -/
def ExtractWF (f : String → List String → ℕ → List (String × ℤ)) : Prop :=
  ∀ q cands n, ∀ p ∈ f q cands n, p.1 ∈ cands

/-- The case-insensitive membership test of `_validate_filter_value`
(`value.lower() in {v.lower(): v for v in available_values}`). -/
def matchesCI (value : String) (available : List String) : Bool :=
  available.any (fun v => strLower v = strLower value)

/-- `CarService._validate_filter_value`: accept a case-insensitive match;
otherwise fail with `InvalidFilterError` carrying fuzzy suggestions scoring
above 60, falling back to the first five sorted available values. -/
def validateFilterValue (svc : CarService) (filter_name value : String)
    (available : List String) : Except CarErr Unit :=
  if matchesCI value available then Except.ok ()
  else
    let fuzzy := svc.extract value available 5
    let suggestion_list := (fuzzy.filter (fun p => 60 < p.2)).map Prod.fst
    let suggestion_list :=
      if suggestion_list.isEmpty then (sortStrings available).take 5 else suggestion_list
    Except.error (CarErr.invalidFilter filter_name value suggestion_list)

/-- `CarService._matches_filters`: AND of all provided filters. -/
def matchesFilters (car : CarDetail)
    (min_price max_price : Option ℤ)
    (brand body_type fuel_type : Option String)
    (mileage_more_than mileage_less_than : Option ℚ)
    (seating_capacity : Option ℤ)
    (transmission : Option String)
    (engine_displacement_more_than engine_displacement_less_than : Option ℤ) : Bool :=
  (match min_price with
   | some mp => decide (mp ≤ car.price.value)
   | none => true) &&
  (match max_price with
   | some mp => decide (car.price.value ≤ mp)
   | none => true) &&
  (match brand with
   | some b => (!(car.brand.name = "")) && (strLower car.brand.name = strLower b)
   | none => true) &&
  (match body_type with
   | some bt =>
     (match car.basic_info.body_type with
      | some s => (!(s = "")) && (strLower s = strLower bt)
      | none => false)
   | none => true) &&
  (match fuel_type with
   | some ft =>
     -- the two truthiness-guarded `extend`s; extending with `[]` is a no-op
     let ft1 : List String := match car.fuel with
       | some fu => if fu.type.isEmpty then [] else fu.type.map strLower
       | none => []
     let ft2 : List String := match car.engine with
       | some en => match en.fuel_type with
         | some l => if l.isEmpty then [] else l.map strLower
         | none => []
       | none => []
     (ft1 ++ ft2).any (fun x => x = strLower ft)
   | none => true) &&
  (match transmission with
   | some tr =>
     match car.transmission with
     | some tl =>
       if tl.isEmpty then false else (tl.map strLower).any (fun x => x = strLower tr)
     | none => false
   | none => true) &&
  (match seating_capacity with
   | some sc =>
     match car.dimensions with
     | some dim => decide (dim.seating_capacity = sc)
     | none => false
   | none => true) &&
  (if engine_displacement_more_than.isSome || engine_displacement_less_than.isSome then
     match car.engine with
     | some en =>
       match en.displacement with
       | some ds =>
         if ds.isEmpty then false
         else
           let vals := ds.map DisplacementValue.value
           let maxd := vals.foldl max (vals.headD 0)
           let mind := vals.foldl min (vals.headD 0)
           (match engine_displacement_more_than with
            | some m => decide (m < maxd)
            | none => true) &&
           (match engine_displacement_less_than with
            | some m => decide (mind < m)
            | none => true)
       | none => false
     | none => false
   else true) &&
  (if mileage_more_than.isSome || mileage_less_than.isSome then
     match car.fuel with
     | some fu =>
       match fu.efficiency with
       | some eff =>
         let car_mileage : Option ℚ :=
           match eff.value with
           | some v => some v
           | none => match eff.max with
             | some v => some v
             | none => eff.min
         match car_mileage with
         | some cm =>
           (match mileage_more_than with
            | some m => decide (m < cm)
            | none => true) &&
           (match mileage_less_than with
            | some m => decide (cm < m)
            | none => true)
         | none => false
       | none => false
     | none => false
   else true)

/-- `CarService._get_sort_value`: the `(has_value, value)` sort key. -/
def getSortValue (car : CarDetail) (sort_by : String) : Bool × ℚ :=
  if sort_by = "price" then (true, (car.price.value : ℚ))
  else if sort_by = "mileage" then
    match car.fuel with
    | some fu =>
      match fu.efficiency with
      | some eff =>
        match eff.value with
        | some v => (true, v)
        | none => match eff.max with
          | some v => (true, v)
          | none => match eff.min with
            | some v => (true, v)
            | none => (false, 0)
      | none => (false, 0)
    | none => (false, 0)
  else if sort_by = "seating_capacity" then
    match car.dimensions with
    | some dim => (true, (dim.seating_capacity : ℚ))
    | none => (false, 0)
  else if sort_by = "engine_displacement" then
    match car.engine with
    | some en =>
      match en.displacement with
      | some ds =>
        if ds.isEmpty then (false, 0)
        else
          let vals := ds.map DisplacementValue.value
          (true, ((vals.foldl max (vals.headD 0) : ℤ) : ℚ))
      | none => (false, 0)
    | none => (false, 0)
  else (true, 0)

/-- Python's `≤` on the `(has_value, value)` tuples (`False` sorts first). -/
def sortKeyLe (x y : Bool × ℚ) : Bool :=
  if x.1 = y.1 then decide (x.2 ≤ y.2)
  else y.1

/-- The sort at the end of `list_cars`: by the requested key (honouring
`reverse=(sort_order == "desc")`), or by ascending price by default; Python's
`list.sort` is a stable merge sort. -/
def sortCars (cars : List CarDetail) (sort_by : Option String) (sort_order : String) :
    List CarDetail :=
  match sort_by with
  | some sb =>
    if sort_order = "desc" then
      cars.mergeSort (fun a b => sortKeyLe (getSortValue b sb) (getSortValue a sb))
    else
      cars.mergeSort (fun a b => sortKeyLe (getSortValue a sb) (getSortValue b sb))
  | none => cars.mergeSort (fun a b => decide (a.price.value ≤ b.price.value))

/-- The `sort_by` / `sort_order` validation shared by `list_cars` and
`search` (`ValueError` on an unknown field or order). -/
def validateSortParams (sort_by : Option String) (sort_order : String) :
    Except CarErr Unit :=
  match sort_by with
  | some sb =>
    if sb = "price" ∨ sb = "mileage" ∨ sb = "seating_capacity" ∨ sb = "engine_displacement" then
      if sort_order = "asc" ∨ sort_order = "desc" then Except.ok ()
      else Except.error (CarErr.valueError
        ("Invalid sort_order: '" ++ sort_order ++ "'. Must be 'asc' or 'desc'"))
    else Except.error (CarErr.valueError
      ("Invalid sort_by: '" ++ sb ++
        "'. Must be one of: price, mileage, seating_capacity, engine_displacement"))
  | none =>
    if sort_order = "asc" ∨ sort_order = "desc" then Except.ok ()
    else Except.error (CarErr.valueError
      ("Invalid sort_order: '" ++ sort_order ++ "'. Must be 'asc' or 'desc'"))

/-- One provided categorical filter validated against its available set
(`None` filters are skipped). -/
def validateOpt (svc : CarService) (name : String) (value : Option String)
    (available : List String) : Except CarErr Unit :=
  match value with
  | some v => validateFilterValue svc name v available
  | none => Except.ok ()

/-- The four-filter validation block at the top of both `list_cars` and
`search`, in source order. -/
def validateAllFilters (svc : CarService)
    (brand body_type fuel_type transmission : Option String) : Except CarErr Unit := do
  validateOpt svc "brand" brand svc.available_brands
  validateOpt svc "body_type" body_type svc.available_body_types
  validateOpt svc "fuel_type" fuel_type svc.available_fuel_types
  validateOpt svc "transmission" transmission svc.available_transmissions

/-- `CarService.list_cars`: validate, filter, sort, paginate, and strip to
basic details. -/
def list_cars (svc : CarService) (limit offset : ℕ)
    (min_price max_price : Option ℤ) (brand body_type fuel_type : Option String)
    (mileage_more_than mileage_less_than : Option ℚ) (seating_capacity : Option ℤ)
    (transmission : Option String)
    (engine_displacement_more_than engine_displacement_less_than : Option ℤ)
    (sort_by : Option String) (sort_order : String) : Except CarErr (List CarDetail) := do
  validateAllFilters svc brand body_type fuel_type transmission
  validateSortParams sort_by sort_order
  let filtered := (svc.cars.map Prod.snd).filter (fun car =>
    matchesFilters car min_price max_price brand body_type fuel_type
      mileage_more_than mileage_less_than seating_capacity transmission
      engine_displacement_more_than engine_displacement_less_than)
  let sorted := sortCars filtered sort_by sort_order
  let paginated := (sorted.drop offset).take limit
  pure (paginated.map getBasicOnly)

/-- The composite ascending sort key of `search` when `sort_by` is given:
`(has_value, value or -value, -score)`. -/
def searchSortLe (sb sort_order : String) (x y : CarDetail × ℤ) : Bool :=
  let kx := getSortValue x.1 sb
  let ky := getSortValue y.1 sb
  let vx : ℚ := if sort_order = "asc" then kx.2 else -kx.2
  let vy : ℚ := if sort_order = "asc" then ky.2 else -ky.2
  if kx.1 = ky.1 then
    if vx = vy then decide ((-x.2 : ℤ) ≤ (-y.2 : ℤ))
    else decide (vx ≤ vy)
  else ky.1

/-- The default sort key of `search`: `(-score, price)` ascending. -/
def searchDefaultLe (x y : CarDetail × ℤ) : Bool :=
  if x.2 = y.2 then decide (x.1.price.value ≤ y.1.price.value)
  else decide ((-x.2 : ℤ) ≤ (-y.2 : ℤ))

/-- `CarService.search`: validate, direct substring match over name /
manufacturer / model (score 100), fuzzy fallback over the name when there is
no direct match, sort, truncate, strip to basic details. -/
def searchCars (svc : CarService) (query : String) (limit : ℕ)
    (min_price max_price : Option ℤ) (brand body_type fuel_type : Option String)
    (mileage_more_than mileage_less_than : Option ℚ) (seating_capacity : Option ℤ)
    (transmission : Option String)
    (engine_displacement_more_than engine_displacement_less_than : Option ℤ)
    (sort_by : Option String) (sort_order : String) : Except CarErr (List CarDetail) := do
  validateAllFilters svc brand body_type fuel_type transmission
  validateSortParams sort_by sort_order
  let query_lower := strLower query
  let flt := fun car : CarDetail =>
    matchesFilters car min_price max_price brand body_type fuel_type
      mileage_more_than mileage_less_than seating_capacity transmission
      engine_displacement_more_than engine_displacement_less_than
  let direct := (svc.cars.map Prod.snd).filter (fun car =>
    (substrB query_lower (strLower car.basic_info.name) ||
      (match car.basic_info.manufacturer with
       | some m => (!(m = "")) && substrB query_lower (strLower m)
       | none => false) ||
      substrB query_lower (strLower car.basic_info.model)) && flt car)
  let matching : List (CarDetail × ℤ) :=
    if direct.isEmpty then
      (svc.cars.map Prod.snd).filterMap (fun car =>
        let score := svc.fuzzScore query_lower (strLower car.basic_info.name)
        if svc.fuzzy_threshold ≤ score && flt car then some (car, score) else none)
    else direct.map (fun car => (car, 100))
  let sorted := match sort_by with
    | some sb => matching.mergeSort (searchSortLe sb sort_order)
    | none => matching.mergeSort searchDefaultLe
  pure (((sorted.take limit).map Prod.fst).map getBasicOnly)

/-- `CarService.get_car_details`: dict lookup by lowercased id, basic fields
only; unknown ids raise `CarNotFoundError` with fuzzy id suggestions. -/
def get_car_details (svc : CarService) (car_id : String) : Except CarErr CarDetail :=
  match dictLookup svc.cars (strLower car_id) with
  | some car => Except.ok (getBasicOnly car)
  | none =>
    let available_ids := svc.cars.map Prod.fst
    let suggestions := (svc.extract (strLower car_id) available_ids 5).map Prod.fst
    Except.error (CarErr.carNotFound (carNotFoundMessage car_id suggestions))

/-! ## `AgentToolKit` tool wrappers (src/mahindrabot/core/toolkit.py)

Each wrapper runs the service call inside `try/except` and always returns a
string: `CarNotFoundError` becomes text starting `"Car not found: "`,
`InvalidFilterError` becomes text starting `"Filter error: "`, and any other
exception becomes a generic error line.  The record serializer is an external
formatting helper and is kept as a field of the model. -/

/-- The toolkit state the car tools close over. -/
structure AgentToolKit where
  car_service : CarService
  serialize_car_detail : CarDetail → String

/-- `AgentToolKit.get_car_details`: exceptions surface as tool-output text. -/
def tk_get_car_details (tk : AgentToolKit) (car_id : String) : String :=
  match get_car_details tk.car_service car_id with
  | Except.ok car => tk.serialize_car_detail car
  | Except.error (CarErr.carNotFound msg) => "Car not found: " ++ msg
  | Except.error e => "Error getting car details: " ++ carErrStr e

/-- `AgentToolKit.list_cars`: exceptions surface as tool-output text. -/
def tk_list_cars (tk : AgentToolKit) (limit offset : ℕ)
    (min_price max_price : Option ℤ) (brand body_type fuel_type : Option String)
    (mileage_more_than mileage_less_than : Option ℚ) (seating_capacity : Option ℤ)
    (transmission : Option String)
    (engine_displacement_more_than engine_displacement_less_than : Option ℤ)
    (sort_by : Option String) (sort_order : String) : String :=
  match list_cars tk.car_service limit offset min_price max_price brand body_type
      fuel_type mileage_more_than mileage_less_than seating_capacity transmission
      engine_displacement_more_than engine_displacement_less_than sort_by sort_order with
  | Except.ok cars =>
    String.intercalate "\n\n" (cars.map tk.serialize_car_detail)
  | Except.error (CarErr.invalidFilter f v s) => "Filter error: " ++ invalidFilterMessage f v s
  | Except.error e => "Error listing cars: " ++ carErrStr e

/-! ### Validation lemmas for claims C8 and C9 -/

theorem validateFilterValue_ok (svc : CarService) (name value : String)
    (available : List String) (h : matchesCI value available = true) :
    validateFilterValue svc name value available = Except.ok () := by
  unfold validateFilterValue
  rw [h]
  rfl

theorem validateFilterValue_error_shape (svc : CarService) (name value : String)
    (available : List String) (hm : matchesCI value available = false) :
    ∃ sugg, validateFilterValue svc name value available =
      Except.error (CarErr.invalidFilter name value sugg) := by
  unfold validateFilterValue
  rw [hm]
  exact ⟨_, rfl⟩

theorem validateFilterValue_invalid (svc : CarService) (name value : String)
    (available : List String)
    (hm : matchesCI value available = false)
    (hne : available ≠ [])
    (hwf : ExtractWF svc.extract) :
    ∃ sugg, validateFilterValue svc name value available =
        Except.error (CarErr.invalidFilter name value sugg)
      ∧ sugg ≠ [] ∧ ∀ s ∈ sugg, s ∈ available := by
  unfold validateFilterValue
  rw [hm, if_neg Bool.false_ne_true]
  dsimp only
  by_cases he :
      (((svc.extract value available 5).filter (fun p => 60 < p.2)).map Prod.fst).isEmpty
  · refine ⟨(sortStrings available).take 5, ?_, ?_, ?_⟩
    · rw [if_pos he]
    · intro hnil
      rcases List.take_eq_nil_iff.mp hnil with h5 | hsort
      · exact absurd h5 (by norm_num)
      · have : available = [] := by
          have hp := List.mergeSort_perm available (fun a b => lexLe a.data b.data)
          rw [sortStrings] at hsort
          exact (List.Perm.nil_eq (hsort ▸ hp)).symm
        exact hne this
    · intro s hs
      have hs1 : s ∈ sortStrings available := List.mem_of_mem_take hs
      have hp := List.mergeSort_perm available (fun a b => lexLe a.data b.data)
      exact hp.mem_iff.mp hs1
  · refine ⟨((svc.extract value available 5).filter (fun p => 60 < p.2)).map Prod.fst,
      ?_, ?_, ?_⟩
    · rw [if_neg he]
    · intro hnil
      rw [hnil] at he
      exact he rfl
    · intro s hs
      rcases List.mem_map.mp hs with ⟨p, hp, rfl⟩
      have hp2 : p ∈ svc.extract value available 5 := List.mem_of_mem_filter hp
      exact hwf value available 5 p hp2

theorem validateOpt_ok (svc : CarService) (name : String) (value : Option String)
    (available : List String)
    (h : ∀ v, value = some v → matchesCI v available = true) :
    validateOpt svc name value available = Except.ok () := by
  cases value with
  | none => rfl
  | some v => exact validateFilterValue_ok svc name v available (h v rfl)

theorem validateAllFilters_error_brand (svc : CarService) (b : String)
    (body_type fuel_type transmission : Option String) (e : CarErr)
    (h : validateFilterValue svc "brand" b svc.available_brands = Except.error e) :
    validateAllFilters svc (some b) body_type fuel_type transmission = Except.error e := by
  unfold validateAllFilters validateOpt
  dsimp only
  rw [h]
  rfl

theorem validateAllFilters_error_body (svc : CarService)
    (brand : Option String) (bt : String) (fuel_type transmission : Option String) (e : CarErr)
    (hb : validateOpt svc "brand" brand svc.available_brands = Except.ok ())
    (h : validateFilterValue svc "body_type" bt svc.available_body_types = Except.error e) :
    validateAllFilters svc brand (some bt) fuel_type transmission = Except.error e := by
  unfold validateAllFilters
  rw [hb]
  show validateOpt svc "body_type" (some bt) svc.available_body_types >>= _ = _
  unfold validateOpt
  dsimp only
  rw [h]
  rfl

theorem validateAllFilters_error_fuel (svc : CarService)
    (brand body_type : Option String) (ft : String) (transmission : Option String) (e : CarErr)
    (hb : validateOpt svc "brand" brand svc.available_brands = Except.ok ())
    (hbt : validateOpt svc "body_type" body_type svc.available_body_types = Except.ok ())
    (h : validateFilterValue svc "fuel_type" ft svc.available_fuel_types = Except.error e) :
    validateAllFilters svc brand body_type (some ft) transmission = Except.error e := by
  unfold validateAllFilters
  rw [hb, hbt]
  show validateOpt svc "fuel_type" (some ft) svc.available_fuel_types >>= _ = _
  unfold validateOpt
  dsimp only
  rw [h]
  rfl

theorem validateAllFilters_error_transmission (svc : CarService)
    (brand body_type fuel_type : Option String) (tr : String) (e : CarErr)
    (hb : validateOpt svc "brand" brand svc.available_brands = Except.ok ())
    (hbt : validateOpt svc "body_type" body_type svc.available_body_types = Except.ok ())
    (hft : validateOpt svc "fuel_type" fuel_type svc.available_fuel_types = Except.ok ())
    (h : validateFilterValue svc "transmission" tr svc.available_transmissions =
      Except.error e) :
    validateAllFilters svc brand body_type fuel_type (some tr) = Except.error e := by
  unfold validateAllFilters
  rw [hb, hbt, hft]
  show validateOpt svc "transmission" (some tr) svc.available_transmissions = Except.error e
  unfold validateOpt
  dsimp only
  exact h

theorem validateAllFilters_ok (svc : CarService)
    (brand body_type fuel_type transmission : Option String)
    (hb : validateOpt svc "brand" brand svc.available_brands = Except.ok ())
    (hbt : validateOpt svc "body_type" body_type svc.available_body_types = Except.ok ())
    (hft : validateOpt svc "fuel_type" fuel_type svc.available_fuel_types = Except.ok ())
    (htr : validateOpt svc "transmission" transmission svc.available_transmissions =
      Except.ok ()) :
    validateAllFilters svc brand body_type fuel_type transmission = Except.ok () := by
  unfold validateAllFilters
  rw [hb, hbt, hft]
  exact htr

theorem validateSortParams_cases (sb : Option String) (so : String) :
    validateSortParams sb so = Except.ok () ∨
      ∃ m, validateSortParams sb so = Except.error (CarErr.valueError m) := by
  unfold validateSortParams
  cases sb with
  | none =>
    dsimp only
    split_ifs with h
    · exact Or.inl rfl
    · exact Or.inr ⟨_, rfl⟩
  | some s =>
    dsimp only
    split_ifs with h1 h2
    · exact Or.inl rfl
    · exact Or.inr ⟨_, rfl⟩
    · exact Or.inr ⟨_, rfl⟩

theorem list_cars_error_of_validate (svc : CarService) (limit offset : ℕ)
    (min_price max_price : Option ℤ) (brand body_type fuel_type : Option String)
    (mileage_more_than mileage_less_than : Option ℚ) (seating_capacity : Option ℤ)
    (transmission : Option String)
    (engine_displacement_more_than engine_displacement_less_than : Option ℤ)
    (sort_by : Option String) (sort_order : String) (e : CarErr)
    (h : validateAllFilters svc brand body_type fuel_type transmission = Except.error e) :
    list_cars svc limit offset min_price max_price brand body_type fuel_type
      mileage_more_than mileage_less_than seating_capacity transmission
      engine_displacement_more_than engine_displacement_less_than sort_by sort_order =
    Except.error e := by
  unfold list_cars
  rw [h]
  rfl

theorem searchCars_error_of_validate (svc : CarService) (query : String) (limit : ℕ)
    (min_price max_price : Option ℤ) (brand body_type fuel_type : Option String)
    (mileage_more_than mileage_less_than : Option ℚ) (seating_capacity : Option ℤ)
    (transmission : Option String)
    (engine_displacement_more_than engine_displacement_less_than : Option ℤ)
    (sort_by : Option String) (sort_order : String) (e : CarErr)
    (h : validateAllFilters svc brand body_type fuel_type transmission = Except.error e) :
    searchCars svc query limit min_price max_price brand body_type fuel_type
      mileage_more_than mileage_less_than seating_capacity transmission
      engine_displacement_more_than engine_displacement_less_than sort_by sort_order =
    Except.error e := by
  unfold searchCars
  rw [h]
  rfl

theorem list_cars_no_invalidFilter_of_ok (svc : CarService) (limit offset : ℕ)
    (min_price max_price : Option ℤ) (brand body_type fuel_type : Option String)
    (mileage_more_than mileage_less_than : Option ℚ) (seating_capacity : Option ℤ)
    (transmission : Option String)
    (engine_displacement_more_than engine_displacement_less_than : Option ℤ)
    (sort_by : Option String) (sort_order : String)
    (h : validateAllFilters svc brand body_type fuel_type transmission = Except.ok ()) :
    ∀ f v sugg, list_cars svc limit offset min_price max_price brand body_type fuel_type
      mileage_more_than mileage_less_than seating_capacity transmission
      engine_displacement_more_than engine_displacement_less_than sort_by sort_order ≠
    Except.error (CarErr.invalidFilter f v sugg) := by
  intro f v sugg
  unfold list_cars
  rw [h]
  rcases validateSortParams_cases sort_by sort_order with hs | ⟨m, hs⟩
  · rw [hs]
    intro hc
    exact Except.noConfusion hc
  · rw [hs]
    intro hc
    have hc2 : (Except.error (CarErr.valueError m) : Except CarErr (List CarDetail)) =
        Except.error (CarErr.invalidFilter f v sugg) := hc
    injection hc2 with h2
    exact CarErr.noConfusion h2

theorem searchCars_no_invalidFilter_of_ok (svc : CarService) (query : String) (limit : ℕ)
    (min_price max_price : Option ℤ) (brand body_type fuel_type : Option String)
    (mileage_more_than mileage_less_than : Option ℚ) (seating_capacity : Option ℤ)
    (transmission : Option String)
    (engine_displacement_more_than engine_displacement_less_than : Option ℤ)
    (sort_by : Option String) (sort_order : String)
    (h : validateAllFilters svc brand body_type fuel_type transmission = Except.ok ()) :
    ∀ f v sugg, searchCars svc query limit min_price max_price brand body_type fuel_type
      mileage_more_than mileage_less_than seating_capacity transmission
      engine_displacement_more_than engine_displacement_less_than sort_by sort_order ≠
    Except.error (CarErr.invalidFilter f v sugg) := by
  intro f v sugg
  unfold searchCars
  rw [h]
  rcases validateSortParams_cases sort_by sort_order with hs | ⟨m, hs⟩
  · rw [hs]
    intro hc
    exact Except.noConfusion hc
  · rw [hs]
    intro hc
    have hc2 : Except.error (CarErr.valueError m) =
        (Except.error (CarErr.invalidFilter f v sugg) : Except CarErr (List CarDetail)) := hc
    injection hc2 with h2
    exact CarErr.noConfusion h2

/-- A provided categorical filter value matching its available set
case-insensitively (vacuously true for an omitted filter). -/
def ProvidedValid (value : Option String) (available : List String) : Prop :=
  ∀ v, value = some v → matchesCI v available = true

/-- Claim C8: a categorical filter value (brand, body type, fuel type,
transmission) that matches no available value case-insensitively makes both
`list_cars` and `search` fail with an `InvalidFilterError` carrying that
filter's name, the rejected value and a non-empty list of suggested valid
values (the filters are validated in source order, so each part assumes the
earlier filters pass); when every provided value matches, neither call
returns an `InvalidFilterError`.  The suggestion lists are non-empty whenever
the corresponding available set is. -/
theorem invalid_filter_rejected (svc : CarService) (hwf : ExtractWF svc.extract)
    (query : String) (limit offset : ℕ)
    (min_price max_price : Option ℤ) (brand body_type fuel_type : Option String)
    (mileage_more_than mileage_less_than : Option ℚ) (seating_capacity : Option ℤ)
    (transmission : Option String)
    (engine_displacement_more_than engine_displacement_less_than : Option ℤ)
    (sort_by : Option String) (sort_order : String) :
    (∀ b, brand = some b → matchesCI b svc.available_brands = false →
      svc.available_brands ≠ [] →
      ∃ sugg, sugg ≠ [] ∧ (∀ s ∈ sugg, s ∈ svc.available_brands) ∧
        list_cars svc limit offset min_price max_price brand body_type fuel_type
            mileage_more_than mileage_less_than seating_capacity transmission
            engine_displacement_more_than engine_displacement_less_than sort_by sort_order =
          Except.error (CarErr.invalidFilter "brand" b sugg) ∧
        searchCars svc query limit min_price max_price brand body_type fuel_type
            mileage_more_than mileage_less_than seating_capacity transmission
            engine_displacement_more_than engine_displacement_less_than sort_by sort_order =
          Except.error (CarErr.invalidFilter "brand" b sugg))
    ∧ (ProvidedValid brand svc.available_brands →
      ∀ bt, body_type = some bt → matchesCI bt svc.available_body_types = false →
      svc.available_body_types ≠ [] →
      ∃ sugg, sugg ≠ [] ∧ (∀ s ∈ sugg, s ∈ svc.available_body_types) ∧
        list_cars svc limit offset min_price max_price brand body_type fuel_type
            mileage_more_than mileage_less_than seating_capacity transmission
            engine_displacement_more_than engine_displacement_less_than sort_by sort_order =
          Except.error (CarErr.invalidFilter "body_type" bt sugg) ∧
        searchCars svc query limit min_price max_price brand body_type fuel_type
            mileage_more_than mileage_less_than seating_capacity transmission
            engine_displacement_more_than engine_displacement_less_than sort_by sort_order =
          Except.error (CarErr.invalidFilter "body_type" bt sugg))
    ∧ (ProvidedValid brand svc.available_brands →
      ProvidedValid body_type svc.available_body_types →
      ∀ ft, fuel_type = some ft → matchesCI ft svc.available_fuel_types = false →
      svc.available_fuel_types ≠ [] →
      ∃ sugg, sugg ≠ [] ∧ (∀ s ∈ sugg, s ∈ svc.available_fuel_types) ∧
        list_cars svc limit offset min_price max_price brand body_type fuel_type
            mileage_more_than mileage_less_than seating_capacity transmission
            engine_displacement_more_than engine_displacement_less_than sort_by sort_order =
          Except.error (CarErr.invalidFilter "fuel_type" ft sugg) ∧
        searchCars svc query limit min_price max_price brand body_type fuel_type
            mileage_more_than mileage_less_than seating_capacity transmission
            engine_displacement_more_than engine_displacement_less_than sort_by sort_order =
          Except.error (CarErr.invalidFilter "fuel_type" ft sugg))
    ∧ (ProvidedValid brand svc.available_brands →
      ProvidedValid body_type svc.available_body_types →
      ProvidedValid fuel_type svc.available_fuel_types →
      ∀ tr, transmission = some tr → matchesCI tr svc.available_transmissions = false →
      svc.available_transmissions ≠ [] →
      ∃ sugg, sugg ≠ [] ∧ (∀ s ∈ sugg, s ∈ svc.available_transmissions) ∧
        list_cars svc limit offset min_price max_price brand body_type fuel_type
            mileage_more_than mileage_less_than seating_capacity transmission
            engine_displacement_more_than engine_displacement_less_than sort_by sort_order =
          Except.error (CarErr.invalidFilter "transmission" tr sugg) ∧
        searchCars svc query limit min_price max_price brand body_type fuel_type
            mileage_more_than mileage_less_than seating_capacity transmission
            engine_displacement_more_than engine_displacement_less_than sort_by sort_order =
          Except.error (CarErr.invalidFilter "transmission" tr sugg))
    ∧ (ProvidedValid brand svc.available_brands →
      ProvidedValid body_type svc.available_body_types →
      ProvidedValid fuel_type svc.available_fuel_types →
      ProvidedValid transmission svc.available_transmissions →
      (∀ f v sugg, list_cars svc limit offset min_price max_price brand body_type fuel_type
          mileage_more_than mileage_less_than seating_capacity transmission
          engine_displacement_more_than engine_displacement_less_than sort_by sort_order ≠
        Except.error (CarErr.invalidFilter f v sugg)) ∧
      (∀ f v sugg, searchCars svc query limit min_price max_price brand body_type fuel_type
          mileage_more_than mileage_less_than seating_capacity transmission
          engine_displacement_more_than engine_displacement_less_than sort_by sort_order ≠
        Except.error (CarErr.invalidFilter f v sugg))) := by
  refine ⟨?_, ?_, ?_, ?_, ?_⟩
  · intro b hb hm hne
    obtain ⟨sugg, hval, hnem, hsub⟩ :=
      validateFilterValue_invalid svc "brand" b svc.available_brands hm hne hwf
    subst hb
    have hv := validateAllFilters_error_brand svc b body_type fuel_type transmission _ hval
    exact ⟨sugg, hnem, hsub,
      list_cars_error_of_validate svc limit offset min_price max_price _ body_type fuel_type
        mileage_more_than mileage_less_than seating_capacity transmission
        engine_displacement_more_than engine_displacement_less_than sort_by sort_order _ hv,
      searchCars_error_of_validate svc query limit min_price max_price _ body_type fuel_type
        mileage_more_than mileage_less_than seating_capacity transmission
        engine_displacement_more_than engine_displacement_less_than sort_by sort_order _ hv⟩
  · intro hbv bt hbt hm hne
    obtain ⟨sugg, hval, hnem, hsub⟩ :=
      validateFilterValue_invalid svc "body_type" bt svc.available_body_types hm hne hwf
    subst hbt
    have hv := validateAllFilters_error_body svc brand bt fuel_type transmission _
      (validateOpt_ok svc "brand" brand svc.available_brands hbv) hval
    exact ⟨sugg, hnem, hsub,
      list_cars_error_of_validate svc limit offset min_price max_price brand _ fuel_type
        mileage_more_than mileage_less_than seating_capacity transmission
        engine_displacement_more_than engine_displacement_less_than sort_by sort_order _ hv,
      searchCars_error_of_validate svc query limit min_price max_price brand _ fuel_type
        mileage_more_than mileage_less_than seating_capacity transmission
        engine_displacement_more_than engine_displacement_less_than sort_by sort_order _ hv⟩
  · intro hbv hbtv ft hft hm hne
    obtain ⟨sugg, hval, hnem, hsub⟩ :=
      validateFilterValue_invalid svc "fuel_type" ft svc.available_fuel_types hm hne hwf
    subst hft
    have hv := validateAllFilters_error_fuel svc brand body_type ft transmission _
      (validateOpt_ok svc "brand" brand svc.available_brands hbv)
      (validateOpt_ok svc "body_type" body_type svc.available_body_types hbtv) hval
    exact ⟨sugg, hnem, hsub,
      list_cars_error_of_validate svc limit offset min_price max_price brand body_type _
        mileage_more_than mileage_less_than seating_capacity transmission
        engine_displacement_more_than engine_displacement_less_than sort_by sort_order _ hv,
      searchCars_error_of_validate svc query limit min_price max_price brand body_type _
        mileage_more_than mileage_less_than seating_capacity transmission
        engine_displacement_more_than engine_displacement_less_than sort_by sort_order _ hv⟩
  · intro hbv hbtv hftv tr htr hm hne
    obtain ⟨sugg, hval, hnem, hsub⟩ :=
      validateFilterValue_invalid svc "transmission" tr svc.available_transmissions hm hne hwf
    subst htr
    have hv := validateAllFilters_error_transmission svc brand body_type fuel_type tr _
      (validateOpt_ok svc "brand" brand svc.available_brands hbv)
      (validateOpt_ok svc "body_type" body_type svc.available_body_types hbtv)
      (validateOpt_ok svc "fuel_type" fuel_type svc.available_fuel_types hftv) hval
    exact ⟨sugg, hnem, hsub,
      list_cars_error_of_validate svc limit offset min_price max_price brand body_type
        fuel_type mileage_more_than mileage_less_than seating_capacity _
        engine_displacement_more_than engine_displacement_less_than sort_by sort_order _ hv,
      searchCars_error_of_validate svc query limit min_price max_price brand body_type
        fuel_type mileage_more_than mileage_less_than seating_capacity _
        engine_displacement_more_than engine_displacement_less_than sort_by sort_order _ hv⟩
  · intro hbv hbtv hftv htrv
    have hok := validateAllFilters_ok svc brand body_type fuel_type transmission
      (validateOpt_ok svc "brand" brand svc.available_brands hbv)
      (validateOpt_ok svc "body_type" body_type svc.available_body_types hbtv)
      (validateOpt_ok svc "fuel_type" fuel_type svc.available_fuel_types hftv)
      (validateOpt_ok svc "transmission" transmission svc.available_transmissions htrv)
    exact ⟨list_cars_no_invalidFilter_of_ok svc limit offset min_price max_price brand
        body_type fuel_type mileage_more_than mileage_less_than seating_capacity
        transmission engine_displacement_more_than engine_displacement_less_than
        sort_by sort_order hok,
      searchCars_no_invalidFilter_of_ok svc query limit min_price max_price brand
        body_type fuel_type mileage_more_than mileage_less_than seating_capacity
        transmission engine_displacement_more_than engine_displacement_less_than
        sort_by sort_order hok⟩

/-- Witness for `invalid_filter_rejected`: a service whose only brand is
`"Mahindra"` rejects the brand filter `"Tata"` from both entry points, with
the fallback suggestion list. -/
theorem invalid_filter_rejected_witness :
    ExtractWF (fun _ _ _ => ([] : List (String × ℤ)))
    ∧ matchesCI "Tata" ["Mahindra"] = false
    ∧ (["Mahindra"] : List String) ≠ []
    ∧ ∃ sugg, sugg ≠ [] ∧ (∀ s ∈ sugg, s ∈ ["Mahindra"]) ∧
        list_cars (CarService.mk [] ["Mahindra"] [] [] [] 70 (fun _ _ _ => []) (fun _ _ => 0))
            5 0 none none (some "Tata") none none none none none none none none
            none "asc" =
          Except.error (CarErr.invalidFilter "brand" "Tata" sugg) ∧
        searchCars (CarService.mk [] ["Mahindra"] [] [] [] 70 (fun _ _ _ => []) (fun _ _ => 0))
            "xuv" 5 none none (some "Tata") none none none none none none none none
            none "asc" =
          Except.error (CarErr.invalidFilter "brand" "Tata" sugg) := by
  have hwf : ExtractWF (fun _ _ _ => ([] : List (String × ℤ))) := by
    intro q cands n p hp
    exact absurd hp (List.not_mem_nil p)
  refine ⟨hwf, by decide, by decide, ?_⟩
  exact (invalid_filter_rejected
    (CarService.mk [] ["Mahindra"] [] [] [] 70 (fun _ _ _ => []) (fun _ _ => 0)) hwf
    "xuv" 5 0 none none (some "Tata") none none none none none none none none
    none "asc").1 "Tata" rfl (by decide) (by decide)

/-- Claim C9: the `AgentToolKit` wrappers return plain strings and never let
`CarNotFoundError` or `InvalidFilterError` escape (their return type is
`String`): an unknown car id yields text beginning `"Car not found:"`, and an
invalid categorical filter value yields text beginning `"Filter error:"`,
rather than a raised exception. -/
theorem tool_wrappers_surface_errors (tk : AgentToolKit) (limit offset : ℕ)
    (min_price max_price : Option ℤ) (body_type fuel_type : Option String)
    (mileage_more_than mileage_less_than : Option ℚ) (seating_capacity : Option ℤ)
    (transmission : Option String)
    (engine_displacement_more_than engine_displacement_less_than : Option ℤ)
    (sort_by : Option String) (sort_order : String) :
    (∀ car_id, dictLookup tk.car_service.cars (strLower car_id) = none →
      ∃ rest, tk_get_car_details tk car_id = "Car not found: " ++ rest)
    ∧ (∀ b, matchesCI b tk.car_service.available_brands = false →
      ∃ rest, tk_list_cars tk limit offset min_price max_price (some b) body_type
          fuel_type mileage_more_than mileage_less_than seating_capacity transmission
          engine_displacement_more_than engine_displacement_less_than sort_by sort_order =
        "Filter error: " ++ rest) := by
  constructor
  · intro car_id h
    unfold tk_get_car_details get_car_details
    rw [h]
    exact ⟨_, rfl⟩
  · intro b hm
    obtain ⟨sugg, hval⟩ := validateFilterValue_error_shape tk.car_service "brand" b
      tk.car_service.available_brands hm
    have hv := validateAllFilters_error_brand tk.car_service b body_type fuel_type
      transmission _ hval
    have hl := list_cars_error_of_validate tk.car_service limit offset min_price max_price
      _ body_type fuel_type mileage_more_than mileage_less_than seating_capacity
      transmission engine_displacement_more_than engine_displacement_less_than
      sort_by sort_order _ hv
    unfold tk_list_cars
    rw [hl]
    exact ⟨_, rfl⟩

/-- Witness for `tool_wrappers_surface_errors` on a concrete toolkit. -/
theorem tool_wrappers_surface_errors_witness :
    dictLookup (CarService.mk [] ["Mahindra"] [] [] [] 70 (fun _ _ _ => [])
        (fun _ _ => 0)).cars (strLower "nexon") = none
    ∧ matchesCI "Tata" (CarService.mk [] ["Mahindra"] [] [] [] 70 (fun _ _ _ => [])
        (fun _ _ => 0)).available_brands = false
    ∧ (∃ rest, tk_get_car_details
        (AgentToolKit.mk (CarService.mk [] ["Mahindra"] [] [] [] 70 (fun _ _ _ => [])
          (fun _ _ => 0)) (fun _ => "car")) "nexon" = "Car not found: " ++ rest)
    ∧ ∃ rest, tk_list_cars
        (AgentToolKit.mk (CarService.mk [] ["Mahindra"] [] [] [] 70 (fun _ _ _ => [])
          (fun _ _ => 0)) (fun _ => "car"))
        5 0 none none (some "Tata") none none none none none none none none
        none "asc" = "Filter error: " ++ rest := by
  have h := tool_wrappers_surface_errors
    (AgentToolKit.mk (CarService.mk [] ["Mahindra"] [] [] [] 70 (fun _ _ _ => [])
      (fun _ _ => 0)) (fun _ => "car"))
    5 0 none none none none none none none none none none none "asc"
  exact ⟨rfl, by decide, h.1 "nexon" rfl, h.2 "Tata" (by decide)⟩

end MB
